import Mathlib

/-!
Verification of the accessibility snapshot builder (`UIElement` in
`computer_server/handlers/macos.py`).

The builder walks a platform-supplied accessibility hierarchy and produces a
normalized node tree with computed geometry (offset-relative position,
bounding box, ancestor-clipped visible bounding box, center point) and two
MD5-based identifiers per node (a structural `identifier` and a recursive
`content_identifier`).

The embedding below models the platform as an inductive tree of accessibility
elements (the attribute accessor contract: every attribute is either a typed
value or absent), translates `UIElement.__init__` and its helpers into a
structurally recursive `build` function over that tree, and implements the
`hashlib.md5` hex digest over byte lists so that every hash the source
computes is computed here as well.  Coordinates are rationals; the rational
arithmetic is spelled out via `mkRat` so that all computations reduce inside
the kernel.
-/

set_option maxRecDepth 4500

/-! ## MD5 (as used by `hash_from_string` via `hashlib.md5(...).hexdigest()`) -/

/-- Truncation of a natural number to 32 bits. -/
def u32 (n : Nat) : Nat := n % 4294967296

/-- Bitwise complement within 32 bits. -/
def not32 (n : Nat) : Nat := 4294967295 ^^^ n

/-- Left-rotation of a 32-bit word by `s` places. -/
def rotl32 (s n : Nat) : Nat := u32 ((n <<< s) ||| (n >>> (32 - s)))

/-- The 64 MD5 sine-derived round constants. -/
def md5K : List Nat :=
  [0xd76aa478, 0xe8c7b756, 0x242070db, 0xc1bdceee,
   0xf57c0faf, 0x4787c62a, 0xa8304613, 0xfd469501,
   0x698098d8, 0x8b44f7af, 0xffff5bb1, 0x895cd7be,
   0x6b901122, 0xfd987193, 0xa679438e, 0x49b40821,
   0xf61e2562, 0xc040b340, 0x265e5a51, 0xe9b6c7aa,
   0xd62f105d, 0x02441453, 0xd8a1e681, 0xe7d3fbc8,
   0x21e1cde6, 0xc33707d6, 0xf4d50d87, 0x455a14ed,
   0xa9e3e905, 0xfcefa3f8, 0x676f02d9, 0x8d2a4c8a,
   0xfffa3942, 0x8771f681, 0x6d9d6122, 0xfde5380c,
   0xa4beea44, 0x4bdecfa9, 0xf6bb4b60, 0xbebfbc70,
   0x289b7ec6, 0xeaa127fa, 0xd4ef3085, 0x04881d05,
   0xd9d4d039, 0xe6db99e5, 0x1fa27cf8, 0xc4ac5665,
   0xf4292244, 0x432aff97, 0xab9423a7, 0xfc93a039,
   0x655b59c3, 0x8f0ccc92, 0xffeff47d, 0x85845dd1,
   0x6fa87e4f, 0xfe2ce6e0, 0xa3014314, 0x4e0811a1,
   0xf7537e82, 0xbd3af235, 0x2ad7d2bb, 0xeb86d391]

/-- The 64 MD5 per-round left-rotation amounts. -/
def md5S : List Nat :=
  [7, 12, 17, 22, 7, 12, 17, 22, 7, 12, 17, 22, 7, 12, 17, 22,
   5, 9, 14, 20, 5, 9, 14, 20, 5, 9, 14, 20, 5, 9, 14, 20,
   4, 11, 16, 23, 4, 11, 16, 23, 4, 11, 16, 23, 4, 11, 16, 23,
   6, 10, 15, 21, 6, 10, 15, 21, 6, 10, 15, 21, 6, 10, 15, 21]

/-- The MD5 nonlinear mixing function for round `i`. -/
def md5F (i b c d : Nat) : Nat :=
  if i < 16 then (b &&& c) ||| (not32 b &&& d)
  else if i < 32 then (d &&& b) ||| (not32 d &&& c)
  else if i < 48 then b ^^^ c ^^^ d
  else c ^^^ (b ||| not32 d)

/-- The MD5 message-word index for round `i`. -/
def md5G (i : Nat) : Nat :=
  if i < 16 then i
  else if i < 32 then (5 * i + 1) % 16
  else if i < 48 then (3 * i + 5) % 16
  else (7 * i) % 16

/-- One MD5 round applied to the running state. -/
def md5Step (m : List Nat) (st : Nat × Nat × Nat × Nat) (i : Nat) : Nat × Nat × Nat × Nat :=
  match st with
  | (a, b, c, d) =>
    let f := u32 (md5F i b c d + a + md5K.getD i 0 + m.getD (md5G i) 0)
    (d, u32 (b + rotl32 (md5S.getD i 0) f), b, c)

/-- Decode a list of bytes into little-endian 32-bit words. -/
def toWords : List Nat → List Nat
  | b0 :: b1 :: b2 :: b3 :: rest => (b0 + 256 * (b1 + 256 * (b2 + 256 * b3))) :: toWords rest
  | _ => []

/-- The MD5 compression function for one 64-byte block. -/
def md5Compress (st : Nat × Nat × Nat × Nat) (block : List Nat) : Nat × Nat × Nat × Nat :=
  let m := toWords block
  match st with
  | (a, b, c, d) =>
    match (List.range 64).foldl (md5Step m) (a, b, c, d) with
    | (a2, b2, c2, d2) => (u32 (a + a2), u32 (b + b2), u32 (c + c2), u32 (d + d2))

/-- Fold the compression function over consecutive 64-byte blocks; the fuel is
always instantiated with the (padded) message length, which bounds the number
of blocks. -/
def md5Blocks : Nat → Nat × Nat × Nat × Nat → List Nat → Nat × Nat × Nat × Nat
  | _, st, [] => st
  | 0, st, _ => st
  | fuel + 1, st, bytes => md5Blocks fuel (md5Compress st (bytes.take 64)) (bytes.drop 64)

/-- MD5 padding: a `0x80` byte, zeros up to 56 mod 64, then the bit length in
eight little-endian bytes. -/
def md5Pad (msg : List Nat) : List Nat :=
  let len := msg.length
  let zeros := (119 - len % 64) % 64
  msg ++ [128] ++ List.replicate zeros 0 ++ (List.range 8).map (fun i => (len * 8) >>> (8 * i) % 256)

/-- Lowercase hex digit. -/
def hexChar (n : Nat) : Char := ("0123456789abcdef".data).getD n '0'

/-- Two lowercase hex digits of a byte. -/
def byteHex (n : Nat) : String := String.mk [hexChar (n / 16 % 16), hexChar (n % 16)]

/-- Hex rendering of a 32-bit word, least significant byte first. -/
def wordHexLE (w : Nat) : String :=
  byteHex (w % 256) ++ byteHex (w / 256 % 256) ++ byteHex (w / 65536 % 256) ++ byteHex (w / 16777216 % 256)

/-- The MD5 hex digest of a byte list. -/
def md5Bytes (msg : List Nat) : String :=
  let padded := md5Pad msg
  match md5Blocks padded.length (0x67452301, 0xefcdab89, 0x98badcfe, 0x10325476) padded with
  | (a, b, c, d) => wordHexLE a ++ wordHexLE b ++ wordHexLE c ++ wordHexLE d

/-- UTF-8 encoding of a Unicode code point, as Python's `str.encode()`. -/
def utf8Encode (c : Nat) : List Nat :=
  if c < 128 then [c]
  else if c < 2048 then [192 ||| (c >>> 6), 128 ||| (c &&& 63)]
  else if c < 65536 then [224 ||| (c >>> 12), 128 ||| ((c >>> 6) &&& 63), 128 ||| (c &&& 63)]
  else [240 ||| (c >>> 18), 128 ||| ((c >>> 12) &&& 63), 128 ||| ((c >>> 6) &&& 63), 128 ||| (c &&& 63)]

/-- The UTF-8 bytes of a string. -/
def strBytes (s : String) : List Nat := (s.data.map (fun c => utf8Encode c.toNat)).flatten

/-- The MD5 hex digest of a string, `hashlib.md5(string.encode()).hexdigest()`. -/
def md5String (s : String) : String := md5Bytes (strBytes s)

/-- Sanity check of the MD5 implementation against `hashlib`: digest of the
empty message. -/
theorem md5String_empty : md5String "" = "d41d8cd98f00b204e9800998ecf8427e" := by decide

/-- Sanity check of the MD5 implementation against `hashlib`: an RFC test
message. -/
theorem md5String_abc : md5String "abc" = "900150983cd24fb0d6963f7d28e17f72" := by decide

/-! ## Rational arithmetic helpers

The source computes with floating point coordinates; the embedding uses `ℚ`.
The operations are written through `mkRat` (num/den cross multiplication) so
that concrete computations reduce by `decide`; bridge lemmas relate them to
the standard field operations of `ℚ`. -/

/-- Addition on `ℚ`, written out on numerators and denominators. -/
def qAdd (a b : ℚ) : ℚ := mkRat (a.num * b.den + b.num * a.den) (a.den * b.den)

/-- Negation on `ℚ`, written out on numerators and denominators. -/
def qNeg (a : ℚ) : ℚ := mkRat (-a.num) a.den

/-- Subtraction on `ℚ`. -/
def qSub (a b : ℚ) : ℚ := qAdd a (qNeg b)

/-- Halving on `ℚ` (the source divides sizes by 2). -/
def qHalf (a : ℚ) : ℚ := mkRat a.num (a.den * 2)

/-- Strict comparison on `ℚ` by cross multiplication. -/
def qLtB (a b : ℚ) : Bool := a.num * (b.den : Int) < b.num * (a.den : Int)

/-- Python's `max(0, x)`. -/
def qMax0 (a : ℚ) : ℚ := if qLtB a 0 then 0 else a

/-- Floor of a rational as an integer. -/
def qFloor (a : ℚ) : Int := a.num / (a.den : Int)

/-- Python's `int(x)`: truncation toward zero. -/
def pyInt (a : ℚ) : Int := a.num.tdiv (a.den : Int)

/-- Embedding of an integer as a rational. -/
def intQ (n : Int) : ℚ := mkRat n 1

theorem qAdd_eq (a b : ℚ) : qAdd a b = a + b := by
  have ha : (a.den : ℚ) ≠ 0 := Nat.cast_ne_zero.mpr a.den_nz
  have hb : (b.den : ℚ) ≠ 0 := Nat.cast_ne_zero.mpr b.den_nz
  unfold qAdd
  rw [Rat.mkRat_eq_div]
  push_cast
  rw [eq_comm, eq_div_iff (mul_ne_zero ha hb)]
  have h1 : a * (a.den : ℚ) = (a.num : ℚ) := by
    nth_rewrite 1 [← Rat.num_div_den a]
    exact div_mul_cancel₀ _ ha
  have h2 : b * (b.den : ℚ) = (b.num : ℚ) := by
    nth_rewrite 1 [← Rat.num_div_den b]
    exact div_mul_cancel₀ _ hb
  calc (a + b) * ((a.den : ℚ) * (b.den : ℚ))
      = a * (a.den : ℚ) * (b.den : ℚ) + b * (b.den : ℚ) * (a.den : ℚ) := by ring
    _ = (a.num : ℚ) * (b.den : ℚ) + (b.num : ℚ) * (a.den : ℚ) := by rw [h1, h2]

theorem qNeg_eq (a : ℚ) : qNeg a = -a := by
  unfold qNeg
  rw [Rat.mkRat_eq_div]
  push_cast
  rw [neg_div, Rat.num_div_den]

theorem qSub_eq (a b : ℚ) : qSub a b = a - b := by
  rw [qSub, qAdd_eq, qNeg_eq, sub_eq_add_neg]

theorem qHalf_eq (a : ℚ) : qHalf a = a / 2 := by
  unfold qHalf
  rw [Rat.mkRat_eq_div]
  push_cast
  rw [← div_div, Rat.num_div_den]

theorem qLtB_iff (a b : ℚ) : qLtB a b = true ↔ a < b := by
  have ha : (0 : ℚ) < (a.den : ℚ) := by exact_mod_cast a.den_pos
  have hb : (0 : ℚ) < (b.den : ℚ) := by exact_mod_cast b.den_pos
  have h2 : a < b ↔ (a.num : ℚ) / (a.den : ℚ) < (b.num : ℚ) / (b.den : ℚ) := by
    rw [Rat.num_div_den, Rat.num_div_den]
  rw [qLtB, decide_eq_true_iff, h2, div_lt_div_iff₀ ha hb]
  exact_mod_cast Iff.rfl

theorem qMax0_eq (a : ℚ) : qMax0 a = max 0 a := by
  rw [qMax0]
  rcases lt_or_le a 0 with h | h
  · rw [if_pos ((qLtB_iff a 0).mpr h), max_eq_left h.le]
  · rw [if_neg (fun hc => absurd ((qLtB_iff a 0).mp hc) (not_lt.mpr h)), max_eq_right h]

theorem intQ_eq (n : Int) : intQ n = (n : ℚ) := by
  rw [intQ]
  simp

/-! ## Python string helpers -/

/-- Round to the nearest integer, ties to even: the rounding used by Python's
fixed-point formatting. -/
def roundHalfEven (q : ℚ) : Int :=
  let f := qFloor q
  let r := qSub q (intQ f)
  if qLtB r (mkRat 1 2) then f
  else if qLtB (mkRat 1 2) r then f + 1
  else if f % 2 = 0 then f else f + 1

/-- Python's `f"{x:.0f}"`: round half to even; a negative value that rounds to
zero keeps its sign, printing as `-0`. -/
def fmt0 (q : ℚ) : String :=
  let n := roundHalfEven q
  if n = 0 ∧ qLtB q 0 = true then "-0" else toString n

/-- Python's `str` on a boolean. -/
def pyStrBool (b : Bool) : String := if b then "True" else "False"

/-- Python's `name.replace(" ", "_")` for a single-character pattern. -/
def pyUnderscore (s : String) : String :=
  String.mk (s.data.map (fun c => if c = ' ' then '_' else c))

/-- Python's `sep.join(s)` where `s` is a string (an iterable of its
characters): the characters of `s` interleaved with `sep`. -/
def pyJoin (sep : String) (s : String) : String :=
  match s.data with
  | [] => ""
  | c :: cs => cs.foldl (fun acc ch => acc ++ sep ++ ch.toString) c.toString

/-- Code-point lexicographic comparison of character lists, the order Python
uses to compare and sort `str` values. -/
def charsLe : List Char → List Char → Bool
  | [], _ => true
  | _ :: _, [] => false
  | c :: cs, d :: ds =>
    if c.toNat < d.toNat then true
    else if d.toNat < c.toNat then false
    else charsLe cs ds

/-- Python's `≤` on strings. -/
def strLeB (a b : String) : Bool := charsLe a.data b.data

/-- Python's string order as a relation. -/
def pyLe (a b : String) : Prop := strLeB a b = true

instance : DecidableRel pyLe := fun a b => instDecidableEqBool (strLeB a b) true

theorem charsLe_total : ∀ (a b : List Char), charsLe a b = true ∨ charsLe b a = true
  | [], _ => Or.inl rfl
  | _ :: _, [] => Or.inr rfl
  | c :: cs, d :: ds => by
    by_cases h1 : c.toNat < d.toNat
    · left
      simp [charsLe, h1]
    · by_cases h2 : d.toNat < c.toNat
      · right
        simp [charsLe, h2]
      · rcases charsLe_total cs ds with h | h
        · left
          simp [charsLe, h1, h2, h]
        · right
          simp [charsLe, h1, h2, h]

theorem charsLe_trans : ∀ (a b c : List Char),
    charsLe a b = true → charsLe b c = true → charsLe a c = true
  | [], _, _, _, _ => rfl
  | _ :: _, [], _, h1, _ => by simp [charsLe] at h1
  | _ :: _, _ :: _, [], _, h2 => by simp [charsLe] at h2
  | x :: xs, y :: ys, z :: zs, h1, h2 => by
    simp only [charsLe] at h1 h2 ⊢
    have split1 : x.toNat < y.toNat ∨ (x.toNat = y.toNat ∧ charsLe xs ys = true) := by
      by_cases hxy : x.toNat < y.toNat
      · exact Or.inl hxy
      · by_cases hyx : y.toNat < x.toNat
        · rw [if_neg hxy, if_pos hyx] at h1
          exact absurd h1 (by simp)
        · rw [if_neg hxy, if_neg hyx] at h1
          exact Or.inr ⟨by omega, h1⟩
    have split2 : y.toNat < z.toNat ∨ (y.toNat = z.toNat ∧ charsLe ys zs = true) := by
      by_cases hyz : y.toNat < z.toNat
      · exact Or.inl hyz
      · by_cases hzy : z.toNat < y.toNat
        · rw [if_neg hyz, if_pos hzy] at h2
          exact absurd h2 (by simp)
        · rw [if_neg hyz, if_neg hzy] at h2
          exact Or.inr ⟨by omega, h2⟩
    rcases split1 with hxy | ⟨hxy, hr1⟩ <;> rcases split2 with hyz | ⟨hyz, hr2⟩
    · rw [if_pos (by omega)]
    · rw [if_pos (by omega)]
    · rw [if_pos (by omega)]
    · rw [if_neg (by omega), if_neg (by omega)]
      exact charsLe_trans xs ys zs hr1 hr2

theorem charsLe_antisymm : ∀ (a b : List Char),
    charsLe a b = true → charsLe b a = true → a = b
  | [], [], _, _ => rfl
  | [], _ :: _, _, h2 => by simp [charsLe] at h2
  | _ :: _, [], h1, _ => by simp [charsLe] at h1
  | c :: cs, d :: ds, h1, h2 => by
    simp only [charsLe] at h1 h2
    by_cases h3 : c.toNat < d.toNat
    · rw [if_neg (by omega), if_pos h3] at h2
      exact absurd h2 (by simp)
    · by_cases h4 : d.toNat < c.toNat
      · rw [if_neg h3, if_pos h4] at h1
        exact absurd h1 (by simp)
      · rw [if_neg h3, if_neg h4] at h1
        rw [if_neg h4, if_neg h3] at h2
        have h5 : c.toNat = d.toNat := by omega
        have hcd : c = d := Char.ext (UInt32.toNat.inj h5)
        rw [hcd, charsLe_antisymm cs ds h1 h2]

instance : IsTotal String pyLe :=
  ⟨fun a b => charsLe_total a.data b.data⟩

instance : IsTrans String pyLe :=
  ⟨fun a b c h1 h2 => charsLe_trans a.data b.data c.data h1 h2⟩

instance : IsAntisymm String pyLe := by
  constructor
  intro a b h1 h2
  cases a
  cases b
  have h3 := charsLe_antisymm _ _ h1 h2
  simp only [strLeB] at h3
  exact congrArg String.mk h3

/-- Python's `list.sort()` on strings: ascending code-point lexicographic
order. -/
def pySort (l : List String) : List String := List.insertionSort pyLe l

/-- Sorting is a canonical form: permuted inputs sort identically. -/
theorem pySort_congr {l l2 : List String} (h : l.Perm l2) : pySort l = pySort l2 :=
  List.eq_of_perm_of_sorted
    ((List.perm_insertionSort pyLe l).trans (h.trans (List.perm_insertionSort pyLe l2).symm))
    (List.sorted_insertionSort pyLe l)
    (List.sorted_insertionSort pyLe l2)

/-! ## Geometry data (CGPoint, CGSize values and integer bounding boxes) -/

/-- A point, as obtained from a `kAXValueCGPointType` attribute value. -/
structure Pt where
  x : ℚ
  y : ℚ
deriving DecidableEq

/-- A size, as obtained from a `kAXValueCGSizeType` attribute value. -/
structure Sz where
  width : ℚ
  height : ℚ
deriving DecidableEq

/-- An integer bounding box `[x0, y0, x1, y1]`. -/
structure BBox where
  x0 : Int
  y0 : Int
  x1 : Int
  y1 : Int
deriving DecidableEq

/-! ## Hashing helpers of the source (`hash_from_string`, `component_hash`) -/

/-- Translation of `UIElement.hash_from_string`: the MD5 hex digest, except
that the empty string hashes to the empty string. -/
def hash_from_string (s : String) : String :=
  if s = "" then "" else md5String s

/-- Translation of `UIElement.component_hash`: hash of integer-rounded
position and size, the textual enabled flag, and the role, in that order;
empty when position or size is absent. -/
def component_hash (position : Option Pt) (size : Option Sz) (enabled : Bool)
    (role : String) : String :=
  match position, size with
  | some p, some s =>
    let position_string := fmt0 p.x ++ ";" ++ fmt0 p.y
    let size_string := fmt0 s.width ++ ";" ++ fmt0 s.height
    let enabled_string := pyStrBool enabled
    let role_string := role
    hash_from_string (position_string ++ size_string ++ enabled_string ++ role_string)
  | _, _ => ""

/-! ## Platform model: accessibility elements and the attribute accessor

An `AXElement` records the values the platform reports for the attributes the
builder queries (`element_attribute` returns `None` — here `Option.none` or a
dedicated `unsupported` constructor — when the platform has no value).  The
`kAXValueAttribute` may itself hold a nested accessibility element, so the
types are mutually inductive. -/

/-- A scalar attribute value (string, boolean or number). -/
inductive Prim where
  | str (s : String)
  | bool (b : Bool)
  | int (n : Int)
  | float (q : ℚ)
deriving DecidableEq

mutual
/-- The value of the `kAXValueAttribute` of an element: absent, a scalar, an
array of scalars, or a nested accessibility element. -/
inductive AXValAttr where
  | absent
  | prim (p : Prim)
  | arr (ps : List Prim)
  | elem (e : AXElement)

/-- A children-list attribute (`kAXChildrenAttribute` or
`kAXVisibleChildrenAttribute`): unsupported, or the platform's list. -/
inductive AXChildrenAttr where
  | unsupported
  | supported (l : AXList)

/-- One platform accessibility element with the attributes the builder reads:
role, title, enabled, position, size, description, role description, value,
children and visible children. -/
inductive AXElement where
  | mk (role : Option String) (title : Option String) (enabled : Option Bool)
       (pos : Option Pt) (sz : Option Sz)
       (descr : Option String) (roleDescr : Option String)
       (val : AXValAttr)
       (childrenAttr : AXChildrenAttr)
       (visibleChildrenAttr : AXChildrenAttr)

/-- A list of platform elements. -/
inductive AXList where
  | nil
  | cons (e : AXElement) (rest : AXList)
end

def AXElement.role : AXElement → Option String
  | .mk r _ _ _ _ _ _ _ _ _ => r

def AXElement.title : AXElement → Option String
  | .mk _ t _ _ _ _ _ _ _ _ => t

def AXElement.enabledAttr : AXElement → Option Bool
  | .mk _ _ en _ _ _ _ _ _ _ => en

def AXElement.pos : AXElement → Option Pt
  | .mk _ _ _ p _ _ _ _ _ _ => p

def AXElement.sz : AXElement → Option Sz
  | .mk _ _ _ _ s _ _ _ _ _ => s

def AXElement.descr : AXElement → Option String
  | .mk _ _ _ _ _ d _ _ _ _ => d

def AXElement.roleDescr : AXElement → Option String
  | .mk _ _ _ _ _ _ rd _ _ _ => rd

def AXElement.valAttr : AXElement → AXValAttr
  | .mk _ _ _ _ _ _ _ v _ _ => v

def AXElement.childrenAttr : AXElement → AXChildrenAttr
  | .mk _ _ _ _ _ _ _ _ c _ => c

def AXElement.visibleChildrenAttr : AXElement → AXChildrenAttr
  | .mk _ _ _ _ _ _ _ _ _ vc => vc

/-- Length of a platform child list. -/
def AXList.length : AXList → Nat
  | .nil => 0
  | .cons _ rest => rest.length + 1

/-- The first `n` entries of a platform child list (the ranged
`AXUIElementCopyAttributeValues(element, attribute, 0, 999, None)` call
returns at most the requested range). -/
def AXList.take : Nat → AXList → AXList
  | 0, _ => .nil
  | _, .nil => .nil
  | n + 1, .cons e rest => .cons e (AXList.take n rest)

/-- A platform child list with `n` copies of the same element. -/
def axReplicate : Nat → AXElement → AXList
  | 0, _ => .nil
  | n + 1, e => .cons e (axReplicate n e)

/-! ## The normalized output tree (`UIElement` state after `__init__`) -/

mutual
/-- The `value` field of a built node: `None`, a scalar, a list of scalars
(the `NSArray` branch), or a nested built node. -/
inductive UIValue where
  | none
  | prim (p : Prim)
  | list (ps : List Prim)
  | node (n : UINode)

/-- A built node: the fields `UIElement.__init__` stores on `self`. -/
inductive UINode where
  | mk (role : String) (name : Option String) (enabled : Bool)
       (absolute_position : Option Pt) (position : Option Pt) (size : Option Sz)
       (bbox : Option BBox) (visible_bbox : Option BBox)
       (center : Option (ℚ × ℚ))
       (description : Option String) (role_description : Option String)
       (value : UIValue)
       (children : List UINode)
       (identifier : String) (content_identifier : String)
       (max_depth : Option Nat)
end

def UINode.role : UINode → String
  | .mk r _ _ _ _ _ _ _ _ _ _ _ _ _ _ _ => r

def UINode.name : UINode → Option String
  | .mk _ n _ _ _ _ _ _ _ _ _ _ _ _ _ _ => n

def UINode.enabled : UINode → Bool
  | .mk _ _ en _ _ _ _ _ _ _ _ _ _ _ _ _ => en

def UINode.absolute_position : UINode → Option Pt
  | .mk _ _ _ ap _ _ _ _ _ _ _ _ _ _ _ _ => ap

def UINode.position : UINode → Option Pt
  | .mk _ _ _ _ p _ _ _ _ _ _ _ _ _ _ _ => p

def UINode.size : UINode → Option Sz
  | .mk _ _ _ _ _ s _ _ _ _ _ _ _ _ _ _ => s

def UINode.bbox : UINode → Option BBox
  | .mk _ _ _ _ _ _ b _ _ _ _ _ _ _ _ _ => b

def UINode.visible_bbox : UINode → Option BBox
  | .mk _ _ _ _ _ _ _ vb _ _ _ _ _ _ _ _ => vb

def UINode.center : UINode → Option (ℚ × ℚ)
  | .mk _ _ _ _ _ _ _ _ c _ _ _ _ _ _ _ => c

def UINode.description : UINode → Option String
  | .mk _ _ _ _ _ _ _ _ _ d _ _ _ _ _ _ => d

def UINode.role_description : UINode → Option String
  | .mk _ _ _ _ _ _ _ _ _ _ rd _ _ _ _ _ => rd

def UINode.value : UINode → UIValue
  | .mk _ _ _ _ _ _ _ _ _ _ _ v _ _ _ _ => v

def UINode.children : UINode → List UINode
  | .mk _ _ _ _ _ _ _ _ _ _ _ _ cs _ _ _ => cs

def UINode.identifier : UINode → String
  | .mk _ _ _ _ _ _ _ _ _ _ _ _ _ i _ _ => i

def UINode.content_identifier : UINode → String
  | .mk _ _ _ _ _ _ _ _ _ _ _ _ _ _ ci _ => ci

def UINode.max_depth : UINode → Option Nat
  | .mk _ _ _ _ _ _ _ _ _ _ _ _ _ _ _ md => md

/-! ## The content hash (`UIElement.children_content_hash`) -/

/-- The sorted-content pass of `children_content_hash`: each child's
`content_identifier`, sorted ascending, joined, and hashed. -/
def content_sorted_hash (children : List UINode) : String :=
  hash_from_string (String.join (pySort (children.map UINode.content_identifier)))

/-- The ordered-structure pass of `children_content_hash`: each child's
`identifier` in original order, joined, and hashed. -/
def content_structure_hash (children : List UINode) : String :=
  hash_from_string (String.join (children.map UINode.identifier))

/-- Translation of `UIElement.children_content_hash`.  Note the combining
step: the source executes `content_hash.join(content_structure_hash)`,
Python's `str.join`, which interleaves the sorted-content digest between the
characters of the ordered-structure digest. -/
def children_content_hash (children : List UINode) : String :=
  if children.length = 0 then ""
  else if (children.map UINode.content_identifier).length = 0 then ""
  else hash_from_string (pyJoin (content_sorted_hash children) (content_structure_hash children))

/-- The combining step as the specification words it instead: hash of the
sorted-content digest concatenated with the ordered-structure digest. -/
def children_content_hash_spec (children : List UINode) : String :=
  if children.length = 0 then ""
  else hash_from_string (content_sorted_hash children ++ content_structure_hash children)

/-! ## The tree builder (`UIElement.__init__`, `_set_bboxes`, `_get_children`) -/

/-- Lines 157-159 of the source: when the role is `AXWindow` and the raw
position is present, that position replaces the inherited offset for this
node and its descendants. -/
def windowOffset (role : String) (start_position : Option Pt) (offset_x offset_y : ℚ) :
    ℚ × ℚ :=
  match start_position with
  | some p => if role = "AXWindow" then (p.x, p.y) else (offset_x, offset_y)
  | none => (offset_x, offset_y)

/-- Translation of `UIElement._set_bboxes`: returns the pair
`(bbox, visible_bbox)`.  Both are absent when position or size is; otherwise
the bbox is the integer-truncated box, and the visible bbox is the bbox
itself when no parent visible bbox is supplied, absent when the separating
test on all four edges says the boxes do not intersect, and the
coordinatewise max/min intersection otherwise. -/
def set_bboxes (position : Option Pt) (size : Option Sz)
    (parents_visible_bbox : Option BBox) : Option BBox × Option BBox :=
  match position, size with
  | some p, some s =>
    let bbox : BBox :=
      ⟨pyInt p.x, pyInt p.y, pyInt (qAdd p.x s.width), pyInt (qAdd p.y s.height)⟩
    match parents_visible_bbox with
    | some pb =>
      if bbox.x0 > pb.x1 ∨ bbox.y0 > pb.y1 ∨ bbox.x1 < pb.x0 ∨ bbox.y1 < pb.y0 then
        (some bbox, none)
      else
        (some bbox,
         some ⟨max bbox.x0 pb.x0, max bbox.y0 pb.y0, min bbox.x1 pb.x1, min bbox.y1 pb.y1⟩)
    | none => (some bbox, some bbox)
  | _, _ => (none, none)

mutual
/-- Translation of `UIElement.__init__`.  Notable points, each mirrored from
the source: the offset is reset by `windowOffset` before the position is
adjusted; `self.position` is the same (mutated) point object as
`start_position`, so the center computation reads the adjusted coordinates;
when position or size is absent the constructor returns early, leaving
description, role description, value, children and both identifiers at their
initial values. -/
def build (e : AXElement) (offset_x offset_y : ℚ) (max_depth : Option Nat)
    (parents_visible_bbox : Option BBox) : UINode :=
  match e with
  | .mk role0 title0 enabled0 pos0 sz0 descr0 roleDescr0 val0 ch0 vch0 =>
    let role := role0.getD "No role"
    let name := title0.map pyUnderscore
    let enabled := enabled0.getD false
    let start_position := pos0
    let off := windowOffset role start_position offset_x offset_y
    let absolute_position := start_position
    let position := start_position.map
      (fun p => ⟨qSub p.x (qMax0 off.1), qSub p.y (qMax0 off.2)⟩)
    let size := sz0
    let bv := set_bboxes position size parents_visible_bbox
    match start_position, size with
    | some sp, some s =>
      let center : Option (ℚ × ℚ) :=
        some (qAdd (qAdd (qSub sp.x (qMax0 off.1)) off.1) (qHalf s.width),
              qAdd (qAdd (qSub sp.y (qMax0 off.2)) off.2) (qHalf s.height))
      let description := descr0
      let role_description := roleDescr0
      let value := builtValue val0 off.1 off.2
      let children :=
        if max_depth = none ∨ 0 < max_depth.getD 0 then
          match ch0 with
          | .supported l =>
            buildCapped 999 l off.1 off.2 (max_depth.map (fun d => d - 1)) bv.2
          | .unsupported =>
            match vch0 with
            | .supported l =>
              buildAll l off.1 off.2 (max_depth.map (fun d => d - 1)) bv.2
            | .unsupported => []
        else []
      let identifier := component_hash position size enabled role
      let content_identifier := children_content_hash children
      .mk role name enabled absolute_position position size bv.1 bv.2 center
        description role_description value children identifier content_identifier max_depth
    | _, _ =>
      .mk role name enabled absolute_position position size bv.1 bv.2 none
        (some "") (some "") .none [] "" "" max_depth
termination_by structural e

/-- Translation of lines 184-192 of the source: the `kAXValueAttribute`
handling.  An array value is copied element by element; a value that is
itself an accessibility element is built as a nested `UIElement` with the
current offsets and the default arguments `max_depth=None`,
`parents_visible_bbox=None`. -/
def builtValue (v : AXValAttr) (offset_x offset_y : ℚ) : UIValue :=
  match v with
  | .absent => .none
  | .prim p => .prim p
  | .arr ps => .list ps
  | .elem ve => .node (build ve offset_x offset_y none none)
termination_by structural v

/-- Build the first `n` elements of a platform child list (the fused form of
taking the ranged attribute result and mapping the constructor over it). -/
def buildCapped (n : Nat) (l : AXList) (offset_x offset_y : ℚ) (max_depth : Option Nat)
    (visible_bbox : Option BBox) : List UINode :=
  match n, l with
  | _, .nil => []
  | 0, .cons _ _ => []
  | n + 1, .cons e rest =>
    build e offset_x offset_y max_depth visible_bbox ::
      buildCapped n rest offset_x offset_y max_depth visible_bbox
termination_by structural l

/-- Build every element of a platform child list. -/
def buildAll (l : AXList) (offset_x offset_y : ℚ) (max_depth : Option Nat)
    (visible_bbox : Option BBox) : List UINode :=
  match l with
  | .nil => []
  | .cons e rest =>
    build e offset_x offset_y max_depth visible_bbox ::
      buildAll rest offset_x offset_y max_depth visible_bbox
termination_by structural l
end

/-- Translation of `UIElement._get_children` combined with
`element_attribute`: the `kAXChildrenAttribute` is fetched through the ranged
call (indices 0 to 999), the `kAXVisibleChildrenAttribute` fallback through
the unranged call; each found child is built with the decremented depth and
this node's visible bbox.  (`build` inlines this body; the standalone
definition restates it for the lemmas below.) -/
def get_children (children_attr visible_children_attr : AXChildrenAttr)
    (offset_x offset_y : ℚ) (max_depth : Option Nat) (visible_bbox : Option BBox) :
    List UINode :=
  if max_depth = none ∨ 0 < max_depth.getD 0 then
    match children_attr with
    | .supported l =>
      buildCapped 999 l offset_x offset_y (max_depth.map (fun d => d - 1)) visible_bbox
    | .unsupported =>
      match visible_children_attr with
      | .supported l =>
        buildAll l offset_x offset_y (max_depth.map (fun d => d - 1)) visible_bbox
      | .unsupported => []
  else []

/-! ## General lemmas about `build` -/

/-- The stored `absolute_position` is the raw platform position. -/
theorem build_absolute_position (e : AXElement) (ox oy : ℚ) (md : Option Nat)
    (pvb : Option BBox) : (build e ox oy md pvb).absolute_position = e.pos := by
  cases e with
  | mk r t en p0 s0 d rd v ch vch => cases p0 <;> cases s0 <;> rfl

/-- The stored `position` is the raw position shifted by the effective offset
(clamped at zero), the offset being reset by a window's own position. -/
theorem build_position (e : AXElement) (ox oy : ℚ) (md : Option Nat) (pvb : Option BBox) :
    (build e ox oy md pvb).position = e.pos.map
      (fun p => ⟨qSub p.x (qMax0 (windowOffset ((e.role).getD "No role") e.pos ox oy).1),
                 qSub p.y (qMax0 (windowOffset ((e.role).getD "No role") e.pos ox oy).2)⟩) := by
  cases e with
  | mk r t en p0 s0 d rd v ch vch => cases p0 <;> cases s0 <;> rfl

/-- The stored `size` is the raw platform size. -/
theorem build_size (e : AXElement) (ox oy : ℚ) (md : Option Nat) (pvb : Option BBox) :
    (build e ox oy md pvb).size = e.sz := by
  cases e with
  | mk r t en p0 s0 d rd v ch vch => cases p0 <;> cases s0 <;> rfl

/-- The stored `role` is the platform role with the `"No role"` default. -/
theorem build_role (e : AXElement) (ox oy : ℚ) (md : Option Nat) (pvb : Option BBox) :
    (build e ox oy md pvb).role = (e.role).getD "No role" := by
  cases e with
  | mk r t en p0 s0 d rd v ch vch => cases p0 <;> cases s0 <;> rfl

/-- The stored `name` is the platform title with spaces replaced. -/
theorem build_name (e : AXElement) (ox oy : ℚ) (md : Option Nat) (pvb : Option BBox) :
    (build e ox oy md pvb).name = (e.title).map pyUnderscore := by
  cases e with
  | mk r t en p0 s0 d rd v ch vch => cases p0 <;> cases s0 <;> rfl

/-- The stored `enabled` flag is the platform value defaulted to `false`. -/
theorem build_enabled (e : AXElement) (ox oy : ℚ) (md : Option Nat) (pvb : Option BBox) :
    (build e ox oy md pvb).enabled = (e.enabledAttr).getD false := by
  cases e with
  | mk r t en p0 s0 d rd v ch vch => cases p0 <;> cases s0 <;> rfl

/-- The stored boxes are exactly what `_set_bboxes` computes from the stored
position and size against the supplied parent visible bbox. -/
theorem build_bboxes (e : AXElement) (ox oy : ℚ) (md : Option Nat) (pvb : Option BBox) :
    (build e ox oy md pvb).bbox =
      (set_bboxes (build e ox oy md pvb).position (build e ox oy md pvb).size pvb).1 ∧
    (build e ox oy md pvb).visible_bbox =
      (set_bboxes (build e ox oy md pvb).position (build e ox oy md pvb).size pvb).2 := by
  cases e with
  | mk r t en p0 s0 d rd v ch vch => cases p0 <;> cases s0 <;> exact ⟨rfl, rfl⟩

/-- On every path, the stored `identifier` is `component_hash` of the stored
position, size, enabled flag and role (the early return leaves it at the
initial empty string, which is also what `component_hash` yields when
position or size is absent). -/
theorem build_identifier (e : AXElement) (ox oy : ℚ) (md : Option Nat) (pvb : Option BBox) :
    (build e ox oy md pvb).identifier =
      component_hash (build e ox oy md pvb).position (build e ox oy md pvb).size
        (build e ox oy md pvb).enabled (build e ox oy md pvb).role := by
  cases e with
  | mk r t en p0 s0 d rd v ch vch => cases p0 <;> cases s0 <;> rfl

/-- The early return: when position or size is absent, the fields that are
assigned after the return statement keep their initial values. -/
theorem build_early (e : AXElement) (ox oy : ℚ) (md : Option Nat) (pvb : Option BBox)
    (h : e.pos = none ∨ e.sz = none) :
    (build e ox oy md pvb).center = none ∧
    (build e ox oy md pvb).description = some "" ∧
    (build e ox oy md pvb).role_description = some "" ∧
    (build e ox oy md pvb).value = UIValue.none ∧
    (build e ox oy md pvb).children = [] ∧
    (build e ox oy md pvb).identifier = "" ∧
    (build e ox oy md pvb).content_identifier = "" := by
  cases e with
  | mk r t en p0 s0 d rd v ch vch =>
    cases p0 <;> cases s0 <;>
      simp [AXElement.pos, AXElement.sz] at h <;>
      exact ⟨rfl, rfl, rfl, rfl, rfl, rfl, rfl⟩

/-- The full path: when position and size are present, description, role
description and value are populated from the platform attributes. -/
theorem build_full_attrs (e : AXElement) (ox oy : ℚ) (md : Option Nat) (pvb : Option BBox)
    (sp : Pt) (s : Sz) (hp : e.pos = some sp) (hs : e.sz = some s) :
    (build e ox oy md pvb).description = e.descr ∧
    (build e ox oy md pvb).role_description = e.roleDescr ∧
    (build e ox oy md pvb).value =
      builtValue e.valAttr (windowOffset ((e.role).getD "No role") e.pos ox oy).1
        (windowOffset ((e.role).getD "No role") e.pos ox oy).2 := by
  cases e with
  | mk r t en p0 s0 d rd v ch vch =>
    cases p0 <;> cases s0 <;> simp [AXElement.pos, AXElement.sz] at hp hs
    exact ⟨rfl, rfl, rfl⟩

/-- The full path: the center is computed from the adjusted coordinates (the
source mutates the shared point object before reading it back), plus the
effective offset, plus half the size. -/
theorem build_center (e : AXElement) (ox oy : ℚ) (md : Option Nat) (pvb : Option BBox)
    (sp : Pt) (s : Sz) (hp : e.pos = some sp) (hs : e.sz = some s) :
    (build e ox oy md pvb).center =
      some (qAdd (qAdd (qSub sp.x (qMax0 (windowOffset ((e.role).getD "No role") e.pos ox oy).1))
              (windowOffset ((e.role).getD "No role") e.pos ox oy).1) (qHalf s.width),
            qAdd (qAdd (qSub sp.y (qMax0 (windowOffset ((e.role).getD "No role") e.pos ox oy).2))
              (windowOffset ((e.role).getD "No role") e.pos ox oy).2) (qHalf s.height)) := by
  cases e with
  | mk r t en p0 s0 d rd v ch vch =>
    cases p0 <;> cases s0 <;> simp [AXElement.pos, AXElement.sz] at hp hs
    subst hp hs
    rfl

/-- The children attribute handling, supported case: children are built from
the first 999 platform children, with the effective offsets, the decremented
depth, and this node's own visible bbox. -/
theorem build_children_supported (e : AXElement) (ox oy : ℚ) (md : Option Nat)
    (pvb : Option BBox) (sp : Pt) (s : Sz) (l : AXList)
    (hp : e.pos = some sp) (hs : e.sz = some s) (hch : e.childrenAttr = .supported l)
    (hd : md = none ∨ 0 < md.getD 0) :
    (build e ox oy md pvb).children =
      buildCapped 999 l (windowOffset ((e.role).getD "No role") e.pos ox oy).1
        (windowOffset ((e.role).getD "No role") e.pos ox oy).2
        (md.map (fun d => d - 1)) (build e ox oy md pvb).visible_bbox := by
  cases e with
  | mk r t en p0 s0 d rd v ch vch =>
    simp only [AXElement.pos, AXElement.sz, AXElement.childrenAttr] at hp hs hch
    subst hp hs hch
    exact if_pos hd

/-- The children attribute handling, fallback case: when the primary children
attribute is unsupported, every visible child is built, with no cap. -/
theorem build_children_visible (e : AXElement) (ox oy : ℚ) (md : Option Nat)
    (pvb : Option BBox) (sp : Pt) (s : Sz) (l : AXList)
    (hp : e.pos = some sp) (hs : e.sz = some s)
    (hch : e.childrenAttr = .unsupported) (hvch : e.visibleChildrenAttr = .supported l)
    (hd : md = none ∨ 0 < md.getD 0) :
    (build e ox oy md pvb).children =
      buildAll l (windowOffset ((e.role).getD "No role") e.pos ox oy).1
        (windowOffset ((e.role).getD "No role") e.pos ox oy).2
        (md.map (fun d => d - 1)) (build e ox oy md pvb).visible_bbox := by
  cases e with
  | mk r t en p0 s0 d rd v ch vch =>
    simp only [AXElement.pos, AXElement.sz, AXElement.childrenAttr,
      AXElement.visibleChildrenAttr] at hp hs hch hvch
    subst hp hs hch hvch
    exact if_pos hd

/-- At depth zero, the children list is empty. -/
theorem build_children_depth0 (e : AXElement) (ox oy : ℚ) (pvb : Option BBox) :
    (build e ox oy (some 0) pvb).children = [] := by
  cases e with
  | mk r t en p0 s0 d rd v ch vch =>
    cases p0 <;> cases s0 <;> rfl

/-- When the depth limit does not allow expansion (which forces it to be
exactly zero), the children list is empty. -/
theorem build_children_nodepth (e : AXElement) (ox oy : ℚ) (md : Option Nat)
    (pvb : Option BBox) (hd : ¬(md = none ∨ 0 < md.getD 0)) :
    (build e ox oy md pvb).children = [] := by
  rcases md with _ | k
  · exact absurd (Or.inl rfl) hd
  · have hk : k = 0 := by
      by_contra hne
      exact hd (Or.inr (Nat.pos_of_ne_zero hne))
    subst hk
    exact build_children_depth0 e ox oy pvb

/-- When both children attributes are unsupported, the children list is
empty. -/
theorem build_children_unsupported (e : AXElement) (ox oy : ℚ) (md : Option Nat)
    (pvb : Option BBox) (sp : Pt) (s : Sz) (hp : e.pos = some sp) (hs : e.sz = some s)
    (hch : e.childrenAttr = .unsupported) (hvch : e.visibleChildrenAttr = .unsupported) :
    (build e ox oy md pvb).children = [] := by
  cases e with
  | mk r t en p0 s0 d rd v ch vch =>
    simp only [AXElement.pos, AXElement.sz, AXElement.childrenAttr,
      AXElement.visibleChildrenAttr] at hp hs hch hvch
    subst hp hs hch hvch
    exact ite_self []

/-- Every member of `buildCapped` is the build of some element with the same
offsets, depth and visible bbox. -/
theorem mem_buildCapped {c : UINode} : ∀ (n : Nat) (l : AXList) (ox oy : ℚ)
    (md : Option Nat) (vb : Option BBox),
    c ∈ buildCapped n l ox oy md vb → ∃ ec, c = build ec ox oy md vb := by
  intro n
  induction n with
  | zero =>
    intro l ox oy md vb h
    cases l <;> simp [buildCapped] at h
  | succ m ih =>
    intro l ox oy md vb h
    cases l with
    | nil => simp [buildCapped] at h
    | cons e rest =>
      rw [buildCapped] at h
      rcases List.mem_cons.mp h with h1 | h1
      · exact ⟨e, h1⟩
      · exact ih rest ox oy md vb h1

/-- Every member of `buildAll` is the build of some element with the same
offsets, depth and visible bbox. -/
theorem mem_buildAll {c : UINode} : ∀ (k : Nat) (l : AXList) (ox oy : ℚ)
    (md : Option Nat) (vb : Option BBox), l.length ≤ k →
    c ∈ buildAll l ox oy md vb → ∃ ec, c = build ec ox oy md vb := by
  intro k
  induction k with
  | zero =>
    intro l ox oy md vb hk h
    cases l with
    | nil => simp [buildAll] at h
    | cons e rest => simp [AXList.length] at hk
  | succ m ih =>
    intro l ox oy md vb hk h
    cases l with
    | nil => simp [buildAll] at h
    | cons e rest =>
      rw [buildAll] at h
      rcases List.mem_cons.mp h with h1 | h1
      · exact ⟨e, h1⟩
      · exact ih rest ox oy md vb (by simp [AXList.length] at hk; omega) h1

/-- Every child of a built node is itself the build of some platform element,
with the parent's effective offsets, the decremented depth limit, and the
parent's visible bbox. -/
theorem mem_build_children (e : AXElement) (ox oy : ℚ) (md : Option Nat)
    (pvb : Option BBox) (c : UINode) (hc : c ∈ (build e ox oy md pvb).children) :
    ∃ ec, c = build ec (windowOffset ((e.role).getD "No role") e.pos ox oy).1
      (windowOffset ((e.role).getD "No role") e.pos ox oy).2
      (md.map (fun d => d - 1)) (build e ox oy md pvb).visible_bbox := by
  by_cases hd : md = none ∨ 0 < md.getD 0
  · rcases hp : e.pos with _ | sp
    · rw [(build_early e ox oy md pvb (Or.inl hp)).2.2.2.2.1] at hc
      simp at hc
    · rcases hs : e.sz with _ | s
      · rw [(build_early e ox oy md pvb (Or.inr hs)).2.2.2.2.1] at hc
        simp at hc
      · rcases hch : e.childrenAttr with _ | l
        · rcases hvch : e.visibleChildrenAttr with _ | l2
          · rw [build_children_unsupported e ox oy md pvb sp s hp hs hch hvch] at hc
            simp at hc
          · rw [build_children_visible e ox oy md pvb sp s l2 hp hs hch hvch hd, hp] at hc
            exact mem_buildAll l2.length l2 _ _ _ _ (Nat.le_refl _) hc
        · rw [build_children_supported e ox oy md pvb sp s l hp hs hch hd, hp] at hc
          exact mem_buildCapped 999 l _ _ _ _ hc
  · rw [build_children_nodepth e ox oy md pvb hd] at hc
    simp at hc

/-! ## Bounding box predicates and `_set_bboxes` lemmas -/

/-- Rectangle containment: `inner` lies inside `outer`. -/
def bboxSubset (inner outer : BBox) : Prop :=
  outer.x0 ≤ inner.x0 ∧ outer.y0 ≤ inner.y0 ∧ inner.x1 ≤ outer.x1 ∧ inner.y1 ≤ outer.y1

/-- The separating-axis test on all four edges, exactly the non-intersection
check `_set_bboxes` performs. -/
def bboxSeparated (b pb : BBox) : Prop :=
  b.x0 > pb.x1 ∨ b.y0 > pb.y1 ∨ b.x1 < pb.x0 ∨ b.y1 < pb.y0

instance (i o : BBox) : Decidable (bboxSubset i o) := by
  unfold bboxSubset
  infer_instance

instance (b pb : BBox) : Decidable (bboxSeparated b pb) := by
  unfold bboxSeparated
  infer_instance

/-- Whenever `_set_bboxes` produces a visible bbox against a parent visible
bbox, the result is contained in the parent's box. -/
theorem set_bboxes_subset (p? : Option Pt) (s? : Option Sz) (pb v : BBox)
    (h : (set_bboxes p? s? (some pb)).2 = some v) : bboxSubset v pb := by
  rcases p? with _ | p
  · simp [set_bboxes] at h
  · rcases s? with _ | s
    · simp [set_bboxes] at h
    · simp only [set_bboxes] at h
      split at h
      · simp at h
      · obtain rfl := (Option.some.inj h).symm
        refine ⟨?_, ?_, ?_, ?_⟩ <;> simp

/-- With no parent visible bbox, the visible bbox equals the bbox. -/
theorem set_bboxes_none (p? : Option Pt) (s? : Option Sz) :
    (set_bboxes p? s? none).2 = (set_bboxes p? s? none).1 := by
  rcases p? with _ | p <;> rcases s? with _ | s <;> rfl

/-- When the separating-axis test holds between the computed bbox and the
parent visible bbox, the visible bbox is absent. -/
theorem set_bboxes_sep (p? : Option Pt) (s? : Option Sz) (pb b : BBox)
    (h1 : (set_bboxes p? s? (some pb)).1 = some b) (h2 : bboxSeparated b pb) :
    (set_bboxes p? s? (some pb)).2 = none := by
  rcases p? with _ | p
  · simp [set_bboxes] at h1
  · rcases s? with _ | s
    · simp [set_bboxes] at h1
    · have hb : b = ⟨pyInt p.x, pyInt p.y, pyInt (qAdd p.x s.width), pyInt (qAdd p.y s.height)⟩ := by
        simp only [set_bboxes] at h1
        split at h1 <;> exact (Option.some.inj h1).symm
      subst hb
      simp only [set_bboxes]
      split
      · rfl
      · rename_i hcond
        exact absurd h2 hcond

/-! ## List length lemmas for the child builders -/

/-- `buildAll` is length preserving. -/
theorem length_buildAll : ∀ (k : Nat) (l : AXList) (ox oy : ℚ) (md : Option Nat)
    (vb : Option BBox), l.length ≤ k → (buildAll l ox oy md vb).length = l.length := by
  intro k
  induction k with
  | zero =>
    intro l ox oy md vb hk
    cases l with
    | nil => rfl
    | cons e rest => simp [AXList.length] at hk
  | succ m ih =>
    intro l ox oy md vb hk
    cases l with
    | nil => rfl
    | cons e rest =>
      rw [buildAll]
      simp only [List.length_cons, AXList.length]
      rw [ih rest ox oy md vb (by simp [AXList.length] at hk; omega)]

/-- `buildCapped n` produces at most `n` children. -/
theorem length_buildCapped_le : ∀ (n : Nat) (l : AXList) (ox oy : ℚ) (md : Option Nat)
    (vb : Option BBox), (buildCapped n l ox oy md vb).length ≤ n := by
  intro n
  induction n with
  | zero =>
    intro l ox oy md vb
    cases l <;> simp [buildCapped]
  | succ m ih =>
    intro l ox oy md vb
    cases l with
    | nil => simp [buildCapped]
    | cons e rest =>
      rw [buildCapped]
      simpa using ih rest ox oy md vb

/-- Fidelity bridge: building the first `n` children in one pass is the same
as taking the first `n` platform children (as the ranged accessor call does)
and building all of them. -/
theorem buildCapped_eq_take : ∀ (n : Nat) (l : AXList) (ox oy : ℚ) (md : Option Nat)
    (vb : Option BBox),
    buildCapped n l ox oy md vb = buildAll (AXList.take n l) ox oy md vb := by
  intro n
  induction n with
  | zero =>
    intro l ox oy md vb
    cases l <;> rfl
  | succ m ih =>
    intro l ox oy md vb
    cases l with
    | nil => rfl
    | cons e rest =>
      rw [buildCapped, AXList.take, buildAll, ih rest ox oy md vb]

/-- A replicated platform list has the stated length. -/
theorem length_axReplicate : ∀ (n : Nat) (e : AXElement), (axReplicate n e).length = n := by
  intro n
  induction n with
  | zero => intro e; rfl
  | succ m ih =>
    intro e
    rw [axReplicate, AXList.length, ih e]

/-! ## Small helpers over built values -/

/-- Whether a built `value` field is Python `None`. -/
def UIValue.isNone : UIValue → Bool
  | .none => true
  | _ => false

/-- The number of children of a value that is a nested built node (zero for
any other kind of value). -/
def UIValue.nodeChildCount : UIValue → Nat
  | .node n => n.children.length
  | _ => 0

/-- The number of children the platform reports through the primary children
attribute. -/
def axChildrenCount (e : AXElement) : Nat :=
  match e.childrenAttr with
  | .supported l => l.length
  | .unsupported => 0

/-- The number of children the platform reports through the visible children
attribute. -/
def axVisibleChildrenCount (e : AXElement) : Nat :=
  match e.visibleChildrenAttr with
  | .supported l => l.length
  | .unsupported => 0

/-! ## Claims -/

theorem component_hash_no_pos (s? : Option Sz) (en : Bool) (r : String) :
    component_hash none s? en r = "" := by
  cases s? <;> rfl

theorem component_hash_no_size (p? : Option Pt) (en : Bool) (r : String) :
    component_hash p? none en r = "" := by
  cases p? <;> rfl

/-- C2: `structuralHash` (the stored `identifier`) is a pure function of the
node's (position, size, enabled, role): any two built nodes that agree on
those four stored fields have the same identifier, regardless of name,
description, value, children, or any builder argument; and the identifier is
the empty string whenever position or size is absent. -/
theorem C2_identifier_pure :
    (∀ (e1 e2 : AXElement) (ox1 oy1 ox2 oy2 : ℚ) (md1 md2 : Option Nat)
       (pvb1 pvb2 : Option BBox),
       (build e1 ox1 oy1 md1 pvb1).position = (build e2 ox2 oy2 md2 pvb2).position →
       (build e1 ox1 oy1 md1 pvb1).size = (build e2 ox2 oy2 md2 pvb2).size →
       (build e1 ox1 oy1 md1 pvb1).enabled = (build e2 ox2 oy2 md2 pvb2).enabled →
       (build e1 ox1 oy1 md1 pvb1).role = (build e2 ox2 oy2 md2 pvb2).role →
       (build e1 ox1 oy1 md1 pvb1).identifier = (build e2 ox2 oy2 md2 pvb2).identifier) ∧
    (∀ (e : AXElement) (ox oy : ℚ) (md : Option Nat) (pvb : Option BBox),
       (build e ox oy md pvb).position = none ∨ (build e ox oy md pvb).size = none →
       (build e ox oy md pvb).identifier = "") := by
  constructor
  · intro e1 e2 ox1 oy1 ox2 oy2 md1 md2 pvb1 pvb2 hp hs hen hr
    rw [build_identifier, build_identifier, hp, hs, hen, hr]
  · intro e ox oy md pvb h
    rw [build_identifier]
    rcases h with h | h
    · rw [h, component_hash_no_pos]
    · rw [h, component_hash_no_size]

def w2A : AXElement :=
  .mk (some "AXButton") (some "first title") (some true) (some ⟨10, 20⟩) (some ⟨30, 40⟩)
    (some "descr one") none .absent
    (.supported (.cons (.mk none none none none none none none .absent .unsupported .unsupported) .nil))
    .unsupported

def w2B : AXElement :=
  .mk (some "AXButton") (some "second title") (some true) (some ⟨10, 20⟩) (some ⟨30, 40⟩)
    (some "descr two") (some "other") (.prim (.int 7)) .unsupported .unsupported

def w2C : AXElement :=
  .mk (some "AXButton") (some "third") (some true) none (some ⟨30, 40⟩)
    none none .absent .unsupported .unsupported

/-- Witness for C2 at concrete inputs: two elements differing in title,
description, value and children but with equal geometry, enabled flag and
role produce the same identifier, and a positionless element's identifier is
empty. -/
theorem C2_identifier_pure_witness :
    (build w2A 0 0 none none).identifier = (build w2B 0 0 none none).identifier ∧
    (build w2C 0 0 none none).identifier = "" :=
  ⟨C2_identifier_pure.1 w2A w2B 0 0 0 0 none none none none
      (by decide) (by decide) (by decide) (by decide),
    C2_identifier_pure.2 w2C 0 0 none none (by decide)⟩

/-- C4: for each child of a built node, when both the parent's and the
child's visible bboxes are present the child's is contained in the parent's;
when the parent's visible bbox is absent the child's visible bbox equals its
own bbox; and when the child's bbox fails the separating-axis overlap test
against the parent's visible bbox, the child's visible bbox is absent (no
empty box is produced).  A root built with no parent visible bbox has its
visible bbox equal to its own bbox. -/
theorem C4_visible_bbox_subset :
    (∀ (e : AXElement) (ox oy : ℚ) (md : Option Nat) (pvb : Option BBox) (c : UINode),
       c ∈ (build e ox oy md pvb).children →
       (∀ pb v, (build e ox oy md pvb).visible_bbox = some pb →
          c.visible_bbox = some v → bboxSubset v pb) ∧
       ((build e ox oy md pvb).visible_bbox = none → c.visible_bbox = c.bbox) ∧
       (∀ pb b, (build e ox oy md pvb).visible_bbox = some pb → c.bbox = some b →
          bboxSeparated b pb → c.visible_bbox = none)) ∧
    (∀ (e : AXElement) (ox oy : ℚ) (md : Option Nat),
       (build e ox oy md none).visible_bbox = (build e ox oy md none).bbox) := by
  constructor
  · intro e ox oy md pvb c hc
    obtain ⟨ec, rfl⟩ := mem_build_children e ox oy md pvb c hc
    refine ⟨?_, ?_, ?_⟩
    · intro pb v hpb hv
      rw [hpb] at hv
      rw [(build_bboxes ec _ _ _ (some pb)).2] at hv
      exact set_bboxes_subset _ _ pb v hv
    · intro hpb
      rw [hpb, (build_bboxes ec _ _ _ none).2, (build_bboxes ec _ _ _ none).1,
        set_bboxes_none]
    · intro pb b hpb hb hsep
      rw [hpb] at hb ⊢
      rw [(build_bboxes ec _ _ _ (some pb)).1] at hb
      rw [(build_bboxes ec _ _ _ (some pb)).2]
      exact set_bboxes_sep _ _ pb b hb hsep
  · intro e ox oy md
    rw [(build_bboxes e ox oy md none).2, (build_bboxes e ox oy md none).1, set_bboxes_none]

def w4child : AXElement :=
  .mk (some "AXButton") none (some true) (some ⟨10, 20⟩) (some ⟨30, 40⟩)
    none none .absent .unsupported .unsupported

def w4parent : AXElement :=
  .mk (some "AXGroup") none (some true) (some ⟨0, 0⟩) (some ⟨100, 100⟩)
    none none .absent (.supported (.cons w4child .nil)) .unsupported

def w4childN : UINode := build w4child 0 0 none (some ⟨0, 0, 100, 100⟩)

/-- Witness for C4 at a concrete two-node tree: the child's visible bbox
`[10,20,40,60]` is contained in the parent's `[0,0,100,100]`, and the root
(built with no parent visible bbox) has its visible bbox equal to its own
bbox. -/
theorem C4_visible_bbox_subset_witness :
    bboxSubset ⟨10, 20, 40, 60⟩ ⟨0, 0, 100, 100⟩ ∧
    (build w4parent 0 0 none none).visible_bbox = (build w4parent 0 0 none none).bbox := by
  constructor
  · have hmem : w4childN ∈ (build w4parent 0 0 none none).children := by
      have h : (build w4parent 0 0 none none).children = [w4childN] := rfl
      rw [h]
      exact List.mem_singleton.mpr rfl
    have hv : w4childN.visible_bbox = some ⟨10, 20, 40, 60⟩ := by decide
    exact ((C4_visible_bbox_subset.1 w4parent 0 0 none none w4childN hmem).1
      ⟨0, 0, 100, 100⟩ ⟨10, 20, 40, 60⟩ (by decide) hv)
  · exact C4_visible_bbox_subset.2 w4parent 0 0 none

/-- C5: for every built node, the stored `absolute_position` is the raw
platform position, and a present stored `position` equals the absolute
position minus `max(0, offset)` componentwise, where the offset in effect is
the inherited one unless this node is a window with a position (which resets
it to its own absolute position); children are built with that effective
offset, so the window origin propagates to all descendants. -/
theorem C5_relative_position :
    (∀ (e : AXElement) (ox oy : ℚ) (md : Option Nat) (pvb : Option BBox),
       (build e ox oy md pvb).absolute_position = e.pos ∧
       (∀ p a, (build e ox oy md pvb).position = some p →
          (build e ox oy md pvb).absolute_position = some a →
          p.x = a.x - max 0 (windowOffset ((e.role).getD "No role") e.pos ox oy).1 ∧
          p.y = a.y - max 0 (windowOffset ((e.role).getD "No role") e.pos ox oy).2)) ∧
    (∀ (e : AXElement) (ox oy : ℚ) (md : Option Nat) (pvb : Option BBox) (c : UINode),
       c ∈ (build e ox oy md pvb).children →
       ∃ ec md2, c = build ec (windowOffset ((e.role).getD "No role") e.pos ox oy).1
         (windowOffset ((e.role).getD "No role") e.pos ox oy).2 md2
         (build e ox oy md pvb).visible_bbox) := by
  constructor
  · intro e ox oy md pvb
    refine ⟨build_absolute_position e ox oy md pvb, ?_⟩
    intro p a hp ha
    rw [build_absolute_position e ox oy md pvb] at ha
    rw [build_position e ox oy md pvb, ha] at hp
    obtain rfl := (Option.some.inj hp).symm
    rw [ha]
    constructor
    · show qSub a.x (qMax0 (windowOffset ((e.role).getD "No role") (some a) ox oy).1) =
        a.x - max 0 (windowOffset ((e.role).getD "No role") (some a) ox oy).1
      rw [qSub_eq, qMax0_eq]
    · show qSub a.y (qMax0 (windowOffset ((e.role).getD "No role") (some a) ox oy).2) =
        a.y - max 0 (windowOffset ((e.role).getD "No role") (some a) ox oy).2
      rw [qSub_eq, qMax0_eq]
  · intro e ox oy md pvb c hc
    obtain ⟨ec, rfl⟩ := mem_build_children e ox oy md pvb c hc
    exact ⟨ec, md.map (fun d => d - 1), rfl⟩

def w5win : AXElement :=
  .mk (some "AXWindow") (some "Main Window") (some true) (some ⟨100, 100⟩) (some ⟨800, 600⟩)
    none none .absent (.supported (.cons w4child .nil)) .unsupported

/-- Witness for C5 at a concrete window: the window resets the offset to its
own absolute position `(100,100)`, so its stored relative position is
`100 - max 0 100 = 0` in each component, and its child is built with that
offset. -/
theorem C5_relative_position_witness :
    ((⟨0, 0⟩ : Pt).x = (⟨100, 100⟩ : Pt).x -
        max 0 (windowOffset ((w5win.role).getD "No role") w5win.pos 0 0).1) ∧
    (∃ ec md2, build w4child 100 100 none (build w5win 0 0 none none).visible_bbox =
       build ec (windowOffset ((w5win.role).getD "No role") w5win.pos 0 0).1
         (windowOffset ((w5win.role).getD "No role") w5win.pos 0 0).2 md2
         (build w5win 0 0 none none).visible_bbox) := by
  constructor
  · exact ((C5_relative_position.1 w5win 0 0 none none).2 ⟨0, 0⟩ ⟨100, 100⟩
      (by decide) (by decide)).1
  · have hmem : build w4child 100 100 none (build w5win 0 0 none none).visible_bbox ∈
        (build w5win 0 0 none none).children := by
      have h : (build w5win 0 0 none none).children =
          [build w4child 100 100 none (build w5win 0 0 none none).visible_bbox] := rfl
      rw [h]
      exact List.mem_singleton.mpr rfl
    exact C5_relative_position.2 w5win 0 0 none none _ hmem

theorem set_bboxes_no_pos (s? : Option Sz) (pvb : Option BBox) :
    set_bboxes none s? pvb = (none, none) := by
  cases s? <;> rfl

theorem set_bboxes_no_size (p? : Option Pt) (pvb : Option BBox) :
    set_bboxes p? none pvb = (none, none) := by
  cases p? <;> rfl

/-- C6: depth limiting.  With `max_depth = 0` the children list is empty but
the node's own fields (description, role description, center, value) are
fully populated from the platform (given its geometry is present).  With
`max_depth = 2`, grandchildren have empty children lists, so there are no
great-grandchildren.  Children of a node built at depth `d+1` are built at
depth `d`, and children of a node built with no depth limit are again built
with no depth limit. -/
theorem C6_depth_limiting :
    (∀ (e : AXElement) (ox oy : ℚ) (pvb : Option BBox) (sp : Pt) (s : Sz),
       e.pos = some sp → e.sz = some s →
       (build e ox oy (some 0) pvb).children = [] ∧
       (build e ox oy (some 0) pvb).description = e.descr ∧
       (build e ox oy (some 0) pvb).role_description = e.roleDescr ∧
       (build e ox oy (some 0) pvb).center.isSome = true ∧
       (build e ox oy (some 0) pvb).value =
         builtValue e.valAttr (windowOffset ((e.role).getD "No role") e.pos ox oy).1
           (windowOffset ((e.role).getD "No role") e.pos ox oy).2) ∧
    (∀ (e : AXElement) (ox oy : ℚ) (pvb : Option BBox) (c g : UINode),
       c ∈ (build e ox oy (some 2) pvb).children → g ∈ c.children → g.children = []) ∧
    (∀ (e : AXElement) (ox oy : ℚ) (pvb : Option BBox) (d : Nat) (c : UINode),
       c ∈ (build e ox oy (some (d + 1)) pvb).children →
       ∃ ec, c = build ec (windowOffset ((e.role).getD "No role") e.pos ox oy).1
         (windowOffset ((e.role).getD "No role") e.pos ox oy).2 (some d)
         ((build e ox oy (some (d + 1)) pvb).visible_bbox)) ∧
    (∀ (e : AXElement) (ox oy : ℚ) (pvb : Option BBox) (c : UINode),
       c ∈ (build e ox oy none pvb).children →
       ∃ ec, c = build ec (windowOffset ((e.role).getD "No role") e.pos ox oy).1
         (windowOffset ((e.role).getD "No role") e.pos ox oy).2 none
         ((build e ox oy none pvb).visible_bbox)) := by
  refine ⟨?_, ?_, ?_, ?_⟩
  · intro e ox oy pvb sp s hp hs
    obtain ⟨hd, hrd, hv⟩ := build_full_attrs e ox oy (some 0) pvb sp s hp hs
    refine ⟨build_children_depth0 e ox oy pvb, hd, hrd, ?_, hv⟩
    rw [build_center e ox oy (some 0) pvb sp s hp hs]
    rfl
  · intro e ox oy pvb c g hc hg
    obtain ⟨ec, rfl⟩ := mem_build_children e ox oy (some 2) pvb c hc
    obtain ⟨eg, rfl⟩ := mem_build_children ec _ _ _ _ g hg
    exact build_children_depth0 eg _ _ _
  · intro e ox oy pvb d c hc
    obtain ⟨ec, h2⟩ := mem_build_children e ox oy (some (d + 1)) pvb c hc
    exact ⟨ec, h2⟩
  · intro e ox oy pvb c hc
    obtain ⟨ec, h2⟩ := mem_build_children e ox oy none pvb c hc
    exact ⟨ec, h2⟩

def w6ggc : AXElement :=
  .mk (some "AXStaticText") none (some true) (some ⟨4, 4⟩) (some ⟨1, 1⟩)
    none none .absent .unsupported .unsupported

def w6gc : AXElement :=
  .mk (some "AXCell") none (some true) (some ⟨3, 3⟩) (some ⟨2, 2⟩)
    none none .absent (.supported (.cons w6ggc .nil)) .unsupported

def w6c : AXElement :=
  .mk (some "AXRow") none (some true) (some ⟨2, 2⟩) (some ⟨4, 4⟩)
    none none .absent (.supported (.cons w6gc .nil)) .unsupported

def w6 : AXElement :=
  .mk (some "AXTable") (some "tbl") (some true) (some ⟨0, 0⟩) (some ⟨50, 50⟩)
    (some "a table") (some "table") (.prim (.int 3)) (.supported (.cons w6c .nil)) .unsupported

def w6N2 : UINode := build w6 0 0 (some 2) none

def w6cN : UINode := build w6c 0 0 (some 1) w6N2.visible_bbox

def w6gN : UINode := build w6gc 0 0 (some 0) w6cN.visible_bbox

/-- Witness for C6: at a concrete four-level platform tree, building with
depth 0 gives no children but a populated description; building with depth 2
gives a grandchild whose children list is empty (though the platform reports
a great-grandchild); and the depth-decrement and unlimited-depth parts apply
at the same inputs. -/
theorem C6_depth_limiting_witness :
    (build w6 0 0 (some 0) none).children = [] ∧
    (build w6 0 0 (some 0) none).description = w6.descr ∧
    w6gN.children = [] ∧
    (∃ ec, w6cN = build ec (windowOffset ((w6.role).getD "No role") w6.pos 0 0).1
      (windowOffset ((w6.role).getD "No role") w6.pos 0 0).2 (some 1) w6N2.visible_bbox) ∧
    (∃ ec, build w6c 0 0 none (build w6 0 0 none none).visible_bbox =
      build ec (windowOffset ((w6.role).getD "No role") w6.pos 0 0).1
        (windowOffset ((w6.role).getD "No role") w6.pos 0 0).2 none
        ((build w6 0 0 none none).visible_bbox)) := by
  have hmem1 : w6cN ∈ w6N2.children := by
    have h : w6N2.children = [w6cN] := rfl
    rw [h]
    exact List.mem_singleton.mpr rfl
  have hmem2 : w6gN ∈ w6cN.children := by
    have h : w6cN.children = [w6gN] := rfl
    rw [h]
    exact List.mem_singleton.mpr rfl
  have hmem3 : build w6c 0 0 none (build w6 0 0 none none).visible_bbox ∈
      (build w6 0 0 none none).children := by
    have h : (build w6 0 0 none none).children =
        [build w6c 0 0 none (build w6 0 0 none none).visible_bbox] := rfl
    rw [h]
    exact List.mem_singleton.mpr rfl
  refine ⟨?_, ?_, ?_, ?_, ?_⟩
  · exact (C6_depth_limiting.1 w6 0 0 none ⟨0, 0⟩ ⟨50, 50⟩ rfl rfl).1
  · exact (C6_depth_limiting.1 w6 0 0 none ⟨0, 0⟩ ⟨50, 50⟩ rfl rfl).2.1
  · exact C6_depth_limiting.2.1 w6 0 0 none w6cN w6gN hmem1 hmem2
  · exact C6_depth_limiting.2.2.1 w6 0 0 none 1 w6cN hmem1
  · exact C6_depth_limiting.2.2.2 w6 0 0 none _ hmem3

/-- Whether the platform reports any value attribute at all. -/
def axHasValue (e : AXElement) : Bool :=
  match e.valAttr with
  | .absent => false
  | _ => true

def w7child : AXElement :=
  .mk (some "AXStaticText") none (some true) (some ⟨1, 1⟩) (some ⟨2, 2⟩)
    none none .absent .unsupported .unsupported

def w7 : AXElement :=
  .mk (some "AXButton") (some "ghost") (some true) none (some ⟨10, 10⟩)
    (some "button description") (some "button") (.prim (.str "v"))
    (.supported (.cons w7child .nil)) .unsupported

/-- Counterexample for C7: a node with an absent position but a
platform-reported description, value and child.  The claim says such a node
is emitted with description, value and children populated; the constructor's
early return instead leaves the description at the initial empty string, the
value at `None` and the children list empty. -/
theorem C7_counterexample :
    w7.pos = none ∧
    w7.descr = some "button description" ∧
    axChildrenCount w7 = 1 ∧
    axHasValue w7 = true ∧
    (build w7 0 0 none none).description = some "" ∧
    (build w7 0 0 none none).children.length = 0 ∧
    UIValue.isNone (build w7 0 0 none none).value = true ∧
    (build w7 0 0 none none).role = "AXButton" ∧
    (build w7 0 0 none none).name = some "ghost" := by
  decide

/-- C7 amended: when position or size is absent, not only the geometry is
skipped — the early return also leaves description, role description, value,
children and both identifiers at their initial values; the node itself is
still produced (never dropped), with role, name, enabled, absolute position
and size populated by the code that runs before the return. -/
theorem C7_amended_missing_geometry (e : AXElement) (ox oy : ℚ) (md : Option Nat)
    (pvb : Option BBox) (h : e.pos = none ∨ e.sz = none) :
    (build e ox oy md pvb).children = [] ∧
    (build e ox oy md pvb).description = some "" ∧
    (build e ox oy md pvb).role_description = some "" ∧
    (build e ox oy md pvb).value = UIValue.none ∧
    (build e ox oy md pvb).center = none ∧
    (build e ox oy md pvb).identifier = "" ∧
    (build e ox oy md pvb).content_identifier = "" ∧
    (build e ox oy md pvb).bbox = none ∧
    (build e ox oy md pvb).visible_bbox = none ∧
    (build e ox oy md pvb).role = (e.role).getD "No role" ∧
    (build e ox oy md pvb).name = (e.title).map pyUnderscore ∧
    (build e ox oy md pvb).enabled = (e.enabledAttr).getD false ∧
    (build e ox oy md pvb).absolute_position = e.pos ∧
    (build e ox oy md pvb).size = e.sz := by
  obtain ⟨hcen, hdesc, hrd, hval, hch, hid, hcid⟩ := build_early e ox oy md pvb h
  have hbb : (build e ox oy md pvb).bbox = none ∧ (build e ox oy md pvb).visible_bbox = none := by
    obtain ⟨h1, h2⟩ := build_bboxes e ox oy md pvb
    rcases h with h | h
    · rw [build_position e ox oy md pvb, h] at h1 h2
      rw [Option.map_none'] at h1 h2
      rw [h1, h2, set_bboxes_no_pos]
      exact ⟨rfl, rfl⟩
    · rw [build_size e ox oy md pvb, h] at h1 h2
      rw [h1, h2, set_bboxes_no_size]
      exact ⟨rfl, rfl⟩
  exact ⟨hch, hdesc, hrd, hval, hcen, hid, hcid, hbb.1, hbb.2,
    build_role e ox oy md pvb, build_name e ox oy md pvb, build_enabled e ox oy md pvb,
    build_absolute_position e ox oy md pvb, build_size e ox oy md pvb⟩

/-- Witness for C7 amended, at the concrete positionless element of the
counterexample. -/
theorem C7_amended_missing_geometry_witness :
    (build w7 0 0 none none).children = [] ∧
    (build w7 0 0 none none).description = some "" ∧
    (build w7 0 0 none none).identifier = "" :=
  ⟨(C7_amended_missing_geometry w7 0 0 none none (Or.inl rfl)).1,
   (C7_amended_missing_geometry w7 0 0 none none (Or.inl rfl)).2.1,
   (C7_amended_missing_geometry w7 0 0 none none (Or.inl rfl)).2.2.2.2.2.1⟩

def w8leaf : AXElement :=
  .mk (some "AXStaticText") none (some true) (some ⟨6, 6⟩) (some ⟨1, 1⟩)
    none none .absent .unsupported .unsupported

def w8value : AXElement :=
  .mk (some "AXCell") (some "inner") (some true) (some ⟨5, 5⟩) (some ⟨2, 2⟩)
    none none .absent (.supported (.cons w8leaf .nil)) .unsupported

def w8holder : AXElement :=
  .mk (some "AXTextField") none (some true) (some ⟨0, 0⟩) (some ⟨4, 4⟩)
    none none (.elem w8value) (.supported .nil) .unsupported

/-- Counterexample for C8: a node whose value attribute is a platform element
with one child, built with primary depth limit 0.  The claim says the value
node's own children are never built; the code builds the value node with the
default `max_depth=None`, so its child IS built even though the primary walk
expands nothing. -/
theorem C8_counterexample :
    UIValue.nodeChildCount (build w8holder 0 0 (some 0) none).value = 1 ∧
    (build w8holder 0 0 (some 0) none).children.length = 0 := by
  decide

/-- C8 amended: a value that is itself a platform element is stored as a
nested built node constructed with the current effective offsets and the
default arguments `max_depth = None` and `parents_visible_bbox = None` — so
the value node's children are recursively built without any depth bound,
regardless of the primary walk's depth limit. -/
theorem C8_amended_value_node (e : AXElement) (ox oy : ℚ) (md : Option Nat)
    (pvb : Option BBox) (sp : Pt) (s : Sz) (ve : AXElement)
    (hp : e.pos = some sp) (hs : e.sz = some s) (hv : e.valAttr = .elem ve) :
    (build e ox oy md pvb).value =
      UIValue.node (build ve (windowOffset ((e.role).getD "No role") e.pos ox oy).1
        (windowOffset ((e.role).getD "No role") e.pos ox oy).2 none none) := by
  obtain ⟨hd2, hrd, hval⟩ := build_full_attrs e ox oy md pvb sp s hp hs
  rw [hval, hv]
  rfl

/-- Witness for C8 amended at the counterexample's input: the stored value is
the nested build of the value element with no depth limit. -/
theorem C8_amended_value_node_witness :
    (build w8holder 0 0 (some 0) none).value =
      UIValue.node (build w8value
        (windowOffset ((w8holder.role).getD "No role") w8holder.pos 0 0).1
        (windowOffset ((w8holder.role).getD "No role") w8holder.pos 0 0).2 none none) :=
  C8_amended_value_node w8holder 0 0 (some 0) none ⟨0, 0⟩ ⟨4, 4⟩ w8value rfl rfl rfl

def w9 : AXElement :=
  .mk (some "AXWindow") none (some true) (some ⟨100, 100⟩) (some ⟨800, 600⟩)
    none none .absent .unsupported .unsupported

/-- Counterexample for C9: a window at absolute position (100,100) with size
800x600.  Its role resets the offset in effect to (100,100), so the claim's
formula `absolute_position + offset + size/2` predicts center (600,500); the
code computes (500,400), because `self.position` is the same mutated point
object as `start_position`, so the center reads the adjusted coordinates. -/
theorem C9_counterexample :
    (build w9 0 0 none none).center = some (500, 400) ∧
    (build w9 0 0 none none).center ≠
      some ((100 : ℚ) + 100 + 800 / 2, (100 : ℚ) + 100 + 600 / 2) := by
  have h1 : (build w9 0 0 none none).center = some ((500 : ℚ), (400 : ℚ)) := by decide
  refine ⟨h1, ?_⟩
  rw [h1]
  intro hcontra
  have h2 := Option.some.inj hcontra
  have h3 : (500 : ℚ) = 100 + 100 + 800 / 2 := congrArg Prod.fst h2
  norm_num at h3

/-- C9 amended: for a node with position and size present, the computed
center equals `absolute - max(0, offset) + offset + size/2` componentwise
(the adjusted position plus the offset in effect plus half the size), the
offset being the one established by `windowOffset`. -/
theorem C9_amended_center (e : AXElement) (ox oy : ℚ) (md : Option Nat) (pvb : Option BBox)
    (sp : Pt) (s : Sz) (hp : e.pos = some sp) (hs : e.sz = some s) :
    (build e ox oy md pvb).center = some
      (sp.x - max 0 (windowOffset ((e.role).getD "No role") e.pos ox oy).1 +
         (windowOffset ((e.role).getD "No role") e.pos ox oy).1 + s.width / 2,
       sp.y - max 0 (windowOffset ((e.role).getD "No role") e.pos ox oy).2 +
         (windowOffset ((e.role).getD "No role") e.pos ox oy).2 + s.height / 2) := by
  rw [build_center e ox oy md pvb sp s hp hs]
  simp only [qAdd_eq, qSub_eq, qMax0_eq, qHalf_eq]

/-- Witness for C9 amended at the counterexample's window. -/
theorem C9_amended_center_witness :
    (build w9 0 0 none none).center = some
      ((100 : ℚ) - max 0 (windowOffset ((w9.role).getD "No role") w9.pos 0 0).1 +
         (windowOffset ((w9.role).getD "No role") w9.pos 0 0).1 + 800 / 2,
       (100 : ℚ) - max 0 (windowOffset ((w9.role).getD "No role") w9.pos 0 0).2 +
         (windowOffset ((w9.role).getD "No role") w9.pos 0 0).2 + 600 / 2) :=
  C9_amended_center w9 0 0 none none ⟨100, 100⟩ ⟨800, 600⟩ rfl rfl

def w10leaf : AXElement :=
  .mk none none none none none none none .absent .unsupported .unsupported

def w10 : AXElement :=
  .mk (some "AXGroup") none (some true) (some ⟨0, 0⟩) (some ⟨10, 10⟩)
    none none .absent .unsupported (.supported (axReplicate 1000 w10leaf))

/-- Counterexample for C10: a node whose primary children attribute is
unsupported while the visible-children fallback reports 1000 children.  The
claim says every built node has at most 999 children; the fallback path is
uncapped, so the built node has 1000. -/
theorem C10_counterexample :
    axVisibleChildrenCount w10 = 1000 ∧
    (build w10 0 0 none none).children.length = 1000 := by
  constructor
  · show (axReplicate 1000 w10leaf).length = 1000
    exact length_axReplicate 1000 w10leaf
  · rw [build_children_visible w10 0 0 none none ⟨0, 0⟩ ⟨10, 10⟩
      (axReplicate 1000 w10leaf) rfl rfl rfl rfl (Or.inl rfl)]
    rw [length_buildAll (axReplicate 1000 w10leaf).length _ _ _ _ _ (Nat.le_refl _)]
    exact length_axReplicate 1000 w10leaf

/-- C10 amended: the 999 cap does hold on the primary path — whenever the
platform supports the primary children attribute, the built node has at most
999 children, because the ranged accessor call requests only indices 0 to
999. -/
theorem C10_amended_children_cap (e : AXElement) (ox oy : ℚ) (md : Option Nat)
    (pvb : Option BBox) (l : AXList) (hch : e.childrenAttr = .supported l) :
    (build e ox oy md pvb).children.length ≤ 999 := by
  rcases hp : e.pos with _ | sp
  · rw [(build_early e ox oy md pvb (Or.inl hp)).2.2.2.2.1]
    exact Nat.zero_le 999
  · rcases hs : e.sz with _ | s
    · rw [(build_early e ox oy md pvb (Or.inr hs)).2.2.2.2.1]
      exact Nat.zero_le 999
    · by_cases hd : md = none ∨ 0 < md.getD 0
      · rw [build_children_supported e ox oy md pvb sp s l hp hs hch hd]
        exact length_buildCapped_le 999 l _ _ _ _
      · rw [build_children_nodepth e ox oy md pvb hd]
        exact Nat.zero_le 999

def w10small : AXElement :=
  .mk (some "AXGroup") none (some true) (some ⟨0, 0⟩) (some ⟨10, 10⟩)
    none none .absent (.supported (.cons w10leaf (.cons w10leaf .nil))) .unsupported

/-- Witness for C10 amended: a node with a supported primary children
attribute has at most 999 children. -/
theorem C10_amended_children_cap_witness :
    (build w10small 0 0 none none).children.length ≤ 999 :=
  C10_amended_children_cap w10small 0 0 none none
    (.cons w10leaf (.cons w10leaf .nil)) rfl

def w1grand : AXElement :=
  .mk (some "AXStaticText") (some "g") (some true) (some ⟨160, 135⟩) (some ⟨10, 10⟩)
    none none .absent (.supported .nil) .unsupported

def w1button : AXElement :=
  .mk (some "AXButton") (some "Click me") (some true) (some ⟨150, 130⟩) (some ⟨80, 20⟩)
    (some "a button") (some "button") .absent (.supported (.cons w1grand .nil)) .unsupported

def w1node : UINode := build w1button 0 0 none none

/-- For a nonempty children list, `children_content_hash` is the hash of the
sorted-content digest spliced through the ordered-structure digest. -/
theorem children_content_hash_cons (c : UINode) (cs : List UINode) :
    children_content_hash (c :: cs) =
      hash_from_string (pyJoin (content_sorted_hash (c :: cs)) (content_structure_hash (c :: cs))) := by
  unfold children_content_hash
  rw [if_neg (by simp), if_neg (by simp)]

/-- For a nonempty children list, the specification's combining step is the
hash of the two digests concatenated. -/
theorem children_content_hash_spec_cons (c : UINode) (cs : List UINode) :
    children_content_hash_spec (c :: cs) =
      hash_from_string (content_sorted_hash (c :: cs) ++ content_structure_hash (c :: cs)) := by
  unfold children_content_hash_spec
  rw [if_neg (by simp)]

/-- C1 (code bug): `children_content_hash` is empty for childless nodes and
does compute the sorted-content digest and the ordered-structure digest; but
its combining step executes `content_hash.join(content_structure_hash)` —
Python's `str.join`, which splices the sorted-content digest between the
characters of the ordered-structure digest — instead of hashing the
concatenation of the two digests as specified.  At a concrete input whose
two digests are nonempty, the string the code hashes differs from the
concatenation the specification prescribes. -/
theorem C1_content_hash_splice :
    children_content_hash ([] : List UINode) = "" ∧
    children_content_hash [w1node] =
      hash_from_string (pyJoin (content_sorted_hash [w1node]) (content_structure_hash [w1node])) ∧
    children_content_hash_spec [w1node] =
      hash_from_string (content_sorted_hash [w1node] ++ content_structure_hash [w1node]) ∧
    content_sorted_hash [w1node] ≠ "" ∧
    content_structure_hash [w1node] ≠ "" ∧
    pyJoin (content_sorted_hash [w1node]) (content_structure_hash [w1node]) ≠
      content_sorted_hash [w1node] ++ content_structure_hash [w1node] := by
  refine ⟨rfl, children_content_hash_cons w1node [], children_content_hash_spec_cons w1node [],
    ?_, ?_, ?_⟩
  · decide
  · decide
  · decide

def w3g : AXElement :=
  .mk (some "AXStaticText") (some "h") (some false) (some ⟨300, 300⟩) (some ⟨5, 5⟩)
    none none .absent (.supported .nil) .unsupported

def w3row : AXElement :=
  .mk (some "AXRow") none (some true) (some ⟨200, 200⟩) (some ⟨40, 40⟩)
    none none .absent (.supported (.cons w3g .nil)) .unsupported

def w3node : UINode := build w3row 0 0 none none

/-- C3: the sorted-content half of the content hash is invariant under any
permutation of the children; and at two concrete built children with
different content (different identifiers and different content identifiers),
swapping their order changes the ordered-structure half but not the
sorted-content half. -/
theorem C3_sorted_half_invariance :
    (∀ (l l2 : List UINode), l.Perm l2 → content_sorted_hash l = content_sorted_hash l2) ∧
    content_structure_hash [w1node, w3node] ≠ content_structure_hash [w3node, w1node] ∧
    content_sorted_hash [w1node, w3node] = content_sorted_hash [w3node, w1node] ∧
    w1node.content_identifier ≠ w3node.content_identifier ∧
    w1node.identifier ≠ w3node.identifier := by
  refine ⟨?_, by decide, by decide, by decide, by decide⟩
  intro l l2 h
  unfold content_sorted_hash
  rw [pySort_congr (h.map UINode.content_identifier)]

/-- Witness for C3's universal part: applied to the concrete swap
permutation of the two children. -/
theorem C3_sorted_half_invariance_witness :
    content_sorted_hash [w1node, w3node] = content_sorted_hash [w3node, w1node] :=
  C3_sorted_half_invariance.1 [w1node, w3node] [w3node, w1node]
    (List.Perm.swap w3node w1node [])
